import Mathlib

/-!
Verification of the DIACC-PCTF trust registry engine and framework
orchestrator. The TypeScript source is embedded shallowly: dates are
integers (milliseconds since epoch), JavaScript Maps become lists or
lookup functions, and each public operation becomes a pure function
from an explicit state and an instant "now".
-/

namespace DIACC

/-- Trust status levels of a registry entry (enum TrustStatus). -/
inductive TrustStatus where
  | TRUSTED
  | PROVISIONAL
  | SUSPENDED
  | REVOKED
  | UNKNOWN
deriving DecidableEq

/-- String value of a trust status, as in the TypeScript string enum. -/
def TrustStatus.str : TrustStatus → String
  | .TRUSTED => "TRUSTED"
  | .PROVISIONAL => "PROVISIONAL"
  | .SUSPENDED => "SUSPENDED"
  | .REVOKED => "REVOKED"
  | .UNKNOWN => "UNKNOWN"

/-- Assurance levels (enum AssuranceLevel). -/
inductive AssuranceLevel where
  | LOA1
  | LOA2
  | LOA3
  | LOA4
deriving DecidableEq

/-- Risk levels (enum RiskLevel). -/
inductive RiskLevel where
  | LOW
  | MEDIUM
  | HIGH
  | VERY_HIGH
deriving DecidableEq

/-- Participant types (enum ParticipantType). -/
inductive ParticipantType where
  | CREDENTIAL_SERVICE_PROVIDER
  | AUTHENTICATION_SERVICE_PROVIDER
  | IDENTITY_PROVIDER
  | VERIFIER
  | ISSUER
  | WALLET_PROVIDER
  | TRUST_REGISTRY
  | RELYING_PARTY
deriving DecidableEq

/-- Certification status union from the TrustCertification interface. -/
inductive CertificationStatus where
  | ACTIVE
  | SUSPENDED
  | EXPIRED
  | REVOKED
deriving DecidableEq

/-- Trust certification interface. -/
structure TrustCertification where
  certificationId : String
  issuingAuthority : String
  certificationStandard : String
  issuanceDate : Int
  expirationDate : Option Int
  scope : List String
  status : CertificationStatus
deriving DecidableEq

/-- Trust registry contact information interface (address fields inlined). -/
structure TrustRegistryContactInfo where
  organizationName : String
  contactPerson : String
  email : String
  phone : Option String
  street : String
  city : String
  province : String
  postalCode : String
  country : String
  website : Option String
deriving DecidableEq

/-- Public key information interface. -/
structure PublicKeyInfo where
  keyId : String
  keyType : String
  publicKey : String
  usage : List String
  validFrom : Int
  validUntil : Option Int
  algorithm : String
deriving DecidableEq

/-- Trust registry entry interface. -/
structure TrustRegistryEntry where
  participantId : String
  name : String
  type : ParticipantType
  status : TrustStatus
  assuranceLevel : AssuranceLevel
  certifications : List TrustCertification
  registrationDate : Int
  lastVerified : Int
  expirationDate : Option Int
  trustScore : Int
  governanceFramework : String
  contactInformation : TrustRegistryContactInfo
  publicKeys : List PublicKeyInfo
deriving DecidableEq

/-- Trust verification request interface. -/
structure TrustVerificationRequest where
  participantId : String
  requestedBy : String
  verificationScope : List String
  requestDate : Int
deriving DecidableEq

/-- The verificationDetails component of a TrustVerificationResult. -/
structure VerificationDetails where
  criteriaChecked : List String
  passed : List String
  failed : List String
  warnings : List String
deriving DecidableEq

/-- The validity window of a TrustVerificationResult. -/
structure ValidityWindow where
  validFrom : Int
  validUntil : Int
deriving DecidableEq

/-- Trust verification result interface. -/
structure TrustVerificationResult where
  participantId : String
  trustStatus : TrustStatus
  trustScore : Int
  verificationDate : Int
  verificationDetails : VerificationDetails
  validity : ValidityWindow
deriving DecidableEq

/-- The uniform ProcessResult envelope (the untyped data payload is
dropped; success, message, errors and timestamp are kept). -/
structure ProcessResult where
  success : Bool
  message : String
  errors : List String
  timestamp : Int
deriving DecidableEq

/-- The predicate `cert.status === 'ACTIVE' && (!cert.expirationDate ||
cert.expirationDate > new Date())` used by performTrustVerification and
calculateTrustScore (a Date object is always truthy, so only a missing
expirationDate skips the comparison). -/
def certActiveAt (now : Int) (cert : TrustCertification) : Bool :=
  cert.status == CertificationStatus.ACTIVE &&
    (match cert.expirationDate with
     | none => true
     | some d => now < d)

/-- Milliseconds per day, the divisor 1000*60*60*24. -/
def msPerDay : Int := 86400000

/-- calculateTrustScore from TrustRegistryProvider: base 50, status and
assurance contributions, capped certification bonus, tenure bonus and
staleness penalty, clamped by Math.max(0, Math.min(100, score)).
Math.floor of the real division is integer floor division (fdiv). -/
def calculateTrustScore (now : Int) (entry : TrustRegistryEntry) : Int :=
  let score : Int := 50
  let score := score +
    (match entry.status with
     | .TRUSTED => 30
     | .PROVISIONAL => 10
     | .SUSPENDED => -20
     | .REVOKED => -50
     | .UNKNOWN => 0)
  let score := score +
    (match entry.assuranceLevel with
     | .LOA4 => 20
     | .LOA3 => 15
     | .LOA2 => 10
     | .LOA1 => 5)
  let activeCerts := entry.certifications.filter (certActiveAt now)
  let score := score + min ((activeCerts.length : Int) * 5) 20
  let daysSinceRegistration := (now - entry.registrationDate).fdiv msPerDay
  let score := if daysSinceRegistration > 365 then score + 5 else score
  let daysSinceLastVerified := (now - entry.lastVerified).fdiv msPerDay
  let score := if daysSinceLastVerified > 90 then score - 5 else score
  max 0 (min 100 score)

/-- Modelled from the spec: the status bonus table of the trust score
formula (TRUSTED +30, PROVISIONAL +10, SUSPENDED -20, REVOKED -50,
any other status +0). -/
def statusBonus : TrustStatus → Int
  | .TRUSTED => 30
  | .PROVISIONAL => 10
  | .SUSPENDED => -20
  | .REVOKED => -50
  | .UNKNOWN => 0

/-- Modelled from the spec: the assurance bonus table (LOA4 +20, LOA3
+15, LOA2 +10, LOA1 +5). -/
def assuranceBonus : AssuranceLevel → Int
  | .LOA4 => 20
  | .LOA3 => 15
  | .LOA2 => 10
  | .LOA1 => 5

/-- Modelled from the spec: number of certifications with status ACTIVE
and no expiration date or an expiration date after now. -/
def activeCertCount (now : Int) (entry : TrustRegistryEntry) : Nat :=
  entry.certifications.countP (certActiveAt now)

/-- Modelled from the spec: whole-day floor of days elapsed from t to now. -/
def daysSinceFloor (now t : Int) : Int :=
  (now - t).fdiv 86400000

/-- Modelled from the spec: the trust score as the spec's closed formula,
50 plus bonuses, clamped to [0, 100]. -/
def specTrustScore (now : Int) (entry : TrustRegistryEntry) : Int :=
  max 0 (min 100
    (50 + statusBonus entry.status + assuranceBonus entry.assuranceLevel
      + min (5 * (activeCertCount now entry : Int)) 20
      + (if daysSinceFloor now entry.registrationDate > 365 then 5 else 0)
      - (if daysSinceFloor now entry.lastVerified > 90 then 5 else 0)))

/-- C1: calculateTrustScore computes exactly the spec's formula: 50 plus
the status bonus, plus the assurance bonus, plus min(5 * activeCertCount,
20), plus 5 for tenure over 365 whole days, minus 5 for staleness over 90
whole days, clamped to [0, 100]. -/
theorem calculateTrustScore_matches_spec (now : Int) (entry : TrustRegistryEntry) :
    calculateTrustScore now entry = specTrustScore now entry := by
  obtain ⟨pid, nm, ty, st, al, certs, reg, lv, exp, sc, gov, ci, pks⟩ := entry
  cases st <;> cases al <;>
    simp only [calculateTrustScore, specTrustScore, statusBonus, assuranceBonus,
      activeCertCount, daysSinceFloor, msPerDay, List.countP_eq_length_filter] <;>
    split_ifs <;> omega

/-- performTrustVerification from TrustRegistryProvider: the three checks
(status, active certifications, trust score thresholds) push messages onto
passed/failed/warnings in source order; the overall trustStatus starts as
TRUSTED, downgrades to PROVISIONAL when failed is non-empty, and is then
overridden by the persisted status whenever that is not TRUSTED. -/
def performTrustVerification (now : Int) (entry : TrustRegistryEntry)
    (request : TrustVerificationRequest) : TrustVerificationResult :=
  let passed : List String :=
    if entry.status == TrustStatus.TRUSTED then ["Trust status verification"] else []
  let failed : List String :=
    if entry.status == TrustStatus.TRUSTED then []
    else ["Trust status is " ++ entry.status.str]
  let activeCerts := entry.certifications.filter (certActiveAt now)
  let passed := passed ++ (if activeCerts.length > 0 then ["Active certifications found"] else [])
  let failed := failed ++ (if activeCerts.length > 0 then [] else ["No active certifications"])
  let passed := passed ++ (if entry.trustScore ≥ 70 then ["Trust score meets threshold"] else [])
  let warnings : List String :=
    if entry.trustScore ≥ 70 then []
    else if entry.trustScore ≥ 50 then ["Trust score below recommended threshold"] else []
  let failed := failed ++
    (if entry.trustScore ≥ 70 then []
     else if entry.trustScore ≥ 50 then [] else ["Trust score too low"])
  let trustStatus := TrustStatus.TRUSTED
  let trustStatus := if failed.length > 0 then TrustStatus.PROVISIONAL else trustStatus
  let trustStatus := if entry.status != TrustStatus.TRUSTED then entry.status else trustStatus
  { participantId := entry.participantId
    trustStatus := trustStatus
    trustScore := entry.trustScore
    verificationDate := now
    verificationDetails :=
      { criteriaChecked := passed ++ failed ++ warnings
        passed := passed
        failed := failed
        warnings := warnings }
    validity := { validFrom := now, validUntil := now + 24 * 60 * 60 * 1000 } }

/-- State of a TrustRegistryProvider: the trustEntries Map (a list in
insertion order, keyed by participantId) and the verificationHistory Map
(as a lookup function defaulting to the empty list, matching
getVerificationHistory's `|| []`). -/
structure TrustRegistryState where
  trustEntries : List TrustRegistryEntry
  verificationHistory : String → List TrustVerificationResult

/-- validateInput of TrustRegistryProvider: the truthiness check of
participantId, name, type, assuranceLevel and contactInformation. The
enum fields and the contact object are always truthy; a string is falsy
exactly when it is empty. -/
def validateInput (entry : TrustRegistryEntry) : Bool :=
  entry.participantId != "" && entry.name != ""

/-- The issues list accumulated by validateCertifications. -/
def certificationIssues (now : Int) (certs : List TrustCertification) : List String :=
  certs.flatMap (fun cert =>
    (if cert.certificationId == "" || cert.issuingAuthority == "" then
      ["Invalid certification: missing required fields"]
     else []) ++
    (match cert.expirationDate with
     | none => []
     | some d =>
       if d < now then ["Certification " ++ cert.certificationId ++ " has expired"] else []))

/-- validateCertifications of TrustRegistryProvider. -/
def validateCertifications (now : Int) (certs : List TrustCertification) : ProcessResult :=
  let issues := certificationIssues now certs
  if issues.length > 0 then
    { success := false, message := "Certification validation failed", errors := issues,
      timestamp := now }
  else
    { success := true, message := "Certification validation passed", errors := [],
      timestamp := now }

/-- registerParticipant of TrustRegistryProvider: input validation, then
duplicate check, then certification validation, then the entry is stored
with its initial computed trust score. -/
def registerParticipant (now : Int) (s : TrustRegistryState) (entry : TrustRegistryEntry) :
    ProcessResult × TrustRegistryState :=
  if !(validateInput entry) then
    ({ success := false, message := "Invalid trust registry entry data", errors := [],
       timestamp := now }, s)
  else if s.trustEntries.any (fun e => e.participantId == entry.participantId) then
    ({ success := false, message := "Participant already registered", errors := [],
       timestamp := now }, s)
  else
    let certificationValidation := validateCertifications now entry.certifications
    if !certificationValidation.success then
      (certificationValidation, s)
    else
      let stored := { entry with trustScore := calculateTrustScore now entry }
      ({ success := true, message := "Participant registered successfully", errors := [],
         timestamp := now },
       { s with trustEntries := s.trustEntries ++ [stored] })

/-- verifyTrust of TrustRegistryProvider: looks the entry up, computes the
verification result and appends it to the participant's history; the
entries themselves are not written. -/
def verifyTrust (now : Int) (s : TrustRegistryState) (request : TrustVerificationRequest) :
    ProcessResult × TrustRegistryState :=
  match s.trustEntries.find? (fun e => e.participantId == request.participantId) with
  | none =>
    ({ success := false, message := "Participant not found in trust registry", errors := [],
       timestamp := now }, s)
  | some entry =>
    let verificationResult := performTrustVerification now entry request
    ({ success := true, message := "Trust verification completed", errors := [],
       timestamp := now },
     { s with verificationHistory := fun pid =>
         if pid == request.participantId then s.verificationHistory pid ++ [verificationResult]
         else s.verificationHistory pid })

/-- updateParticipantStatus of TrustRegistryProvider: unconditional status
transition on the found entry, lastVerified touch, trust score recompute.
The Map holds one object per key; the list model rewrites the entries
carrying that key. -/
def updateParticipantStatus (now : Int) (s : TrustRegistryState) (participantId : String)
    (status : TrustStatus) (reason : String) : ProcessResult × TrustRegistryState :=
  match s.trustEntries.find? (fun e => e.participantId == participantId) with
  | none =>
    ({ success := false, message := "Participant not found", errors := [], timestamp := now }, s)
  | some _ =>
    let newEntries := s.trustEntries.map (fun e =>
      if e.participantId == participantId then
        let e2 := { e with status := status, lastVerified := now }
        { e2 with trustScore := calculateTrustScore now e2 }
      else e)
    ({ success := true, message := "Participant status updated successfully", errors := [],
       timestamp := now },
     { s with trustEntries := newEntries })

/-- getTrustEntry of TrustRegistryProvider. -/
def getTrustEntry (s : TrustRegistryState) (participantId : String) :
    Option TrustRegistryEntry :=
  s.trustEntries.find? (fun e => e.participantId == participantId)

/-- getVerificationHistory of TrustRegistryProvider. -/
def getVerificationHistory (s : TrustRegistryState) (participantId : String) :
    List TrustVerificationResult :=
  s.verificationHistory participantId

/-- Search criteria of searchTrustRegistry; every field is optional. -/
structure SearchCriteria where
  type : Option ParticipantType
  status : Option TrustStatus
  assuranceLevel : Option AssuranceLevel
  minTrustScore : Option Int

/-- The filter predicate of searchTrustRegistry. Each present criterion
rejects mismatching entries; the minTrustScore guard is `criteria.
minTrustScore && entry.trustScore < criteria.minTrustScore`, and a
JavaScript number is falsy exactly when it is zero, so a present zero
threshold skips the guard. -/
def matchesSearchCriteria (criteria : SearchCriteria) (entry : TrustRegistryEntry) : Bool :=
  (match criteria.type with
   | none => true
   | some t => entry.type == t) &&
  (match criteria.status with
   | none => true
   | some st => entry.status == st) &&
  (match criteria.assuranceLevel with
   | none => true
   | some al => entry.assuranceLevel == al) &&
  (match criteria.minTrustScore with
   | none => true
   | some m => !(m != 0 && entry.trustScore < m))

/-- searchTrustRegistry of TrustRegistryProvider. -/
def searchTrustRegistry (s : TrustRegistryState) (criteria : SearchCriteria) :
    List TrustRegistryEntry :=
  s.trustEntries.filter (fun entry => matchesSearchCriteria criteria entry)

/-- The check `entry.expirationDate && entry.expirationDate < now` shared
by validateRegistryIntegrity and processExpiredEntries. -/
def entryExpiredAt (now : Int) (entry : TrustRegistryEntry) : Bool :=
  match entry.expirationDate with
  | none => false
  | some d => d < now

/-- The issues list accumulated by validateRegistryIntegrity: expired
entries, expired certifications, out-of-range trust scores. -/
def integrityIssues (now : Int) (entries : List TrustRegistryEntry) : List String :=
  entries.flatMap (fun entry =>
    (if entryExpiredAt now entry then ["Entry " ++ entry.participantId ++ " has expired"]
     else []) ++
    entry.certifications.flatMap (fun cert =>
      match cert.expirationDate with
      | none => []
      | some d =>
        if d < now then
          ["Certification " ++ cert.certificationId ++ " for " ++ entry.participantId ++
            " has expired"]
        else []) ++
    (if entry.trustScore < 0 || entry.trustScore > 100 then
      ["Invalid trust score for " ++ entry.participantId ++ ": " ++ toString entry.trustScore]
     else []))

/-- validateRegistryIntegrity of TrustRegistryProvider. -/
def validateRegistryIntegrity (now : Int) (s : TrustRegistryState) : ProcessResult :=
  let issues := integrityIssues now s.trustEntries
  if issues.length > 0 then
    { success := false, message := "Registry integrity validation failed", errors := issues,
      timestamp := now }
  else
    { success := true, message := "Registry integrity validation passed", errors := [],
      timestamp := now }

/-- updateTrustScores of TrustRegistryProvider: every entry's score is
recomputed (the source skips the write when unchanged, which produces the
same entries). -/
def updateTrustScores (now : Int) (entries : List TrustRegistryEntry) :
    List TrustRegistryEntry :=
  entries.map (fun entry => { entry with trustScore := calculateTrustScore now entry })

/-- processExpiredEntries of TrustRegistryProvider: an entry that has an
expirationDate in the past and status TRUSTED is suspended; every other
entry is untouched. -/
def processExpiredEntries (now : Int) (entries : List TrustRegistryEntry) :
    List TrustRegistryEntry :=
  entries.map (fun entry =>
    if entryExpiredAt now entry && entry.status == TrustStatus.TRUSTED then
      { entry with status := TrustStatus.SUSPENDED }
    else entry)

/-- executeProcess of TrustRegistryProvider (the maintenance sweep):
integrity gate first — on failure the failed ProcessResult is returned and
the store is untouched; otherwise trust scores are recomputed and expired
TRUSTED entries demoted. -/
def executeProcess (now : Int) (s : TrustRegistryState) :
    ProcessResult × TrustRegistryState :=
  let integrityCheck := validateRegistryIntegrity now s
  if !integrityCheck.success then
    (integrityCheck, s)
  else
    ({ success := true, message := "Trust registry validated successfully", errors := [],
       timestamp := now },
     { s with trustEntries := processExpiredEntries now (updateTrustScores now s.trustEntries) })

/-- The final clamp makes every computed score land in [0, 100]. -/
theorem calculateTrustScore_range (now : Int) (entry : TrustRegistryEntry) :
    0 ≤ calculateTrustScore now entry ∧ calculateTrustScore now entry ≤ 100 := by
  simp only [calculateTrustScore]
  omega

/-- Sample contact information for concrete witnesses. -/
def wContact : TrustRegistryContactInfo :=
  { organizationName := "Org", contactPerson := "P", email := "p@org.ca", phone := none,
    street := "1 Main", city := "Ottawa", province := "ON", postalCode := "K1A0A1",
    country := "CA", website := none }

/-- Sample trust registry entry for concrete witnesses. -/
def wEntry : TrustRegistryEntry :=
  { participantId := "p1", name := "Acme", type := ParticipantType.ISSUER,
    status := TrustStatus.TRUSTED, assuranceLevel := AssuranceLevel.LOA2,
    certifications := [], registrationDate := 0, lastVerified := 0,
    expirationDate := none, trustScore := 0, governanceFramework := "DIACC-PCTF",
    contactInformation := wContact, publicKeys := [] }

/-- An empty registry state. -/
def emptyState : TrustRegistryState :=
  { trustEntries := [], verificationHistory := fun _ => [] }

/-- C2: the clamp invariant. calculateTrustScore always returns a value in
[0, 100]; the entry stored by registerParticipant, the entry rewritten by
updateParticipantStatus and every entry left by a successful maintenance
sweep carry scores in [0, 100]. -/
theorem trustScore_clamp_invariant :
    (∀ now entry, 0 ≤ calculateTrustScore now entry ∧ calculateTrustScore now entry ≤ 100)
    ∧ (∀ now s entry r s2, registerParticipant now s entry = (r, s2) → r.success = true →
        ∃ stored, s2.trustEntries = s.trustEntries ++ [stored] ∧
          0 ≤ stored.trustScore ∧ stored.trustScore ≤ 100)
    ∧ (∀ now s pid st reason r s2,
        updateParticipantStatus now s pid st reason = (r, s2) → r.success = true →
        ∀ e ∈ s2.trustEntries, e.participantId = pid →
          0 ≤ e.trustScore ∧ e.trustScore ≤ 100)
    ∧ (∀ now s r s2, executeProcess now s = (r, s2) → r.success = true →
        ∀ e ∈ s2.trustEntries, 0 ≤ e.trustScore ∧ e.trustScore ≤ 100) := by
  refine ⟨calculateTrustScore_range, ?_, ?_, ?_⟩
  · intro now s entry r s2 h hs
    simp only [registerParticipant] at h
    split at h
    · cases h; simp at hs
    · split at h
      · cases h; simp at hs
      · split at h
        · cases h; simp_all [validateCertifications]
        · cases h
          exact ⟨_, rfl, calculateTrustScore_range now entry⟩
  · intro now s pid st reason r s2 h hs e he hpe
    simp only [updateParticipantStatus] at h
    split at h
    · cases h; simp at hs
    · cases h
      simp only [List.mem_map] at he
      obtain ⟨a, ha, rfl⟩ := he
      by_cases hc : a.participantId == pid
      · rw [if_pos hc]
        exact calculateTrustScore_range now _
      · rw [if_neg hc] at hpe
        exact absurd hpe (by simpa using hc)
  · intro now s r s2 h hs e he
    simp only [executeProcess] at h
    split at h
    · cases h
      rename_i hcond
      simp only [validateRegistryIntegrity] at hs hcond
      split at hs <;> simp_all
    · cases h
      simp only [processExpiredEntries, updateTrustScores, List.map_map,
        List.mem_map] at he
      obtain ⟨a, ha, rfl⟩ := he
      simp only [Function.comp]
      split <;> exact calculateTrustScore_range now a

/-- Witness for C2 at a concrete registration into the empty registry. -/
theorem trustScore_clamp_invariant_witness :
    ∃ stored, (registerParticipant 0 emptyState wEntry).2.trustEntries
        = emptyState.trustEntries ++ [stored] ∧
      0 ≤ stored.trustScore ∧ stored.trustScore ≤ 100 :=
  trustScore_clamp_invariant.2.1 0 emptyState wEntry
    (registerParticipant 0 emptyState wEntry).1
    (registerParticipant 0 emptyState wEntry).2 rfl (by decide)

/-- C3: the verification result's trustStatus starts from TRUSTED, is
downgraded to PROVISIONAL when the failed list is non-empty, and is then
overridden by the persisted entry status whenever that is not TRUSTED; in
particular a SUSPENDED entry always verifies as SUSPENDED. -/
theorem performTrustVerification_status_rule (now : Int) (entry : TrustRegistryEntry)
    (request : TrustVerificationRequest) :
    ((performTrustVerification now entry request).trustStatus =
       if entry.status ≠ TrustStatus.TRUSTED then entry.status
       else if (performTrustVerification now entry request).verificationDetails.failed ≠ []
       then TrustStatus.PROVISIONAL else TrustStatus.TRUSTED)
    ∧ (entry.status = TrustStatus.SUSPENDED →
        (performTrustVerification now entry request).trustStatus = TrustStatus.SUSPENDED) := by
  obtain ⟨pid, nm, ty, st, al, certs, reg, lv, exp, sc, gov, ci, pks⟩ := entry
  cases st <;>
    simp [performTrustVerification] <;>
    split_ifs <;>
    simp_all [List.length_pos]
  all_goals
    first
    | (rename_i hex h1 himp
       obtain ⟨x, hx, hax⟩ := hex
       have h2 := himp x hx hax
       omega)
    | (rename_i hex h1 h2 himp
       obtain ⟨x, hx, hax⟩ := hex
       have h3 := himp x hx hax
       omega)

/-- Sample verification request for concrete witnesses. -/
def wRequest : TrustVerificationRequest :=
  { participantId := "p1", requestedBy := "auditor", verificationScope := [], requestDate := 0 }

/-- Sample suspended entry for concrete witnesses. -/
def wSuspEntry : TrustRegistryEntry :=
  { wEntry with status := TrustStatus.SUSPENDED, trustScore := 95 }

/-- Witness for C3: a SUSPENDED entry with a high score verifies as
SUSPENDED. -/
theorem performTrustVerification_status_rule_witness :
    (performTrustVerification 0 wSuspEntry wRequest).trustStatus = TrustStatus.SUSPENDED :=
  (performTrustVerification_status_rule 0 wSuspEntry wRequest).2 rfl

/-- When the integrity issues list is non-empty, the sweep fails and
returns the input state untouched. -/
theorem executeProcess_fails_on_issues (now : Int) (s : TrustRegistryState)
    (h : integrityIssues now s.trustEntries ≠ []) :
    (executeProcess now s).1.success = false ∧ (executeProcess now s).2 = s := by
  have hl : 0 < (integrityIssues now s.trustEntries).length := List.length_pos.mpr h
  simp only [executeProcess, validateRegistryIntegrity, if_pos hl]
  simp

/-- C5: a sweep whose integrity check finds any issue returns a failure
and leaves the store completely unchanged (no score recompute, no
demotion). -/
theorem executeProcess_integrity_gate (now : Int) (s : TrustRegistryState)
    (h : integrityIssues now s.trustEntries ≠ []) :
    (executeProcess now s).1.success = false ∧ (executeProcess now s).2 = s :=
  executeProcess_fails_on_issues now s h

/-- Sample TRUSTED entry already expired at every positive instant. -/
def wExpiredEntry : TrustRegistryEntry :=
  { wEntry with expirationDate := some 0 }

/-- Registry state holding only the expired TRUSTED entry. -/
def wExpiredState : TrustRegistryState :=
  { trustEntries := [wExpiredEntry], verificationHistory := fun _ => [] }

/-- Witness for C5: the expired entry triggers the gate at time 1. -/
theorem executeProcess_integrity_gate_witness :
    integrityIssues 1 wExpiredState.trustEntries ≠ [] ∧
    (executeProcess 1 wExpiredState).1.success = false ∧
    (executeProcess 1 wExpiredState).2 = wExpiredState :=
  ⟨by decide, executeProcess_integrity_gate 1 wExpiredState (by decide)⟩

/-- C4 counterexample: at time 1 the registry holds one TRUSTED entry
whose expirationDate 0 is in the past; after executeProcess its status is
still TRUSTED, not SUSPENDED, because the sweep aborts at the integrity
gate before reaching the expiry phase. -/
theorem executeProcess_demotes_expired_counterexample :
    (executeProcess 1 wExpiredState).2.trustEntries.map TrustRegistryEntry.status
        = [TrustStatus.TRUSTED]
    ∧ ¬ ((executeProcess 1 wExpiredState).2.trustEntries.map TrustRegistryEntry.status
        = [TrustStatus.SUSPENDED]) := by
  decide

/-- C4 amended: the sweep's expiry phase processExpiredEntries demotes a
TRUSTED expired entry to SUSPENDED and leaves a REVOKED entry unchanged,
but an executeProcess invocation on a state containing an expired entry
fails its integrity gate and leaves the whole store, statuses included,
unchanged. -/
theorem sweep_demotion_amended (now : Int) :
    (∀ entries entry, entry ∈ entries → entryExpiredAt now entry = true →
      entry.status = TrustStatus.TRUSTED →
      { entry with status := TrustStatus.SUSPENDED } ∈ processExpiredEntries now entries)
    ∧ (∀ entries entry, entry ∈ entries → entry.status = TrustStatus.REVOKED →
      entry ∈ processExpiredEntries now entries)
    ∧ (∀ s entry, entry ∈ s.trustEntries → entryExpiredAt now entry = true →
      (executeProcess now s).1.success = false ∧ (executeProcess now s).2 = s) := by
  refine ⟨?_, ?_, ?_⟩
  · intro entries entry hmem hexp hstat
    refine List.mem_map.mpr ⟨entry, hmem, ?_⟩
    rw [if_pos]
    simp [hexp, hstat]
  · intro entries entry hmem hstat
    refine List.mem_map.mpr ⟨entry, hmem, ?_⟩
    rw [if_neg]
    simp [hstat]
  · intro s entry hmem hexp
    apply executeProcess_fails_on_issues
    apply List.ne_nil_of_mem
      (a := "Entry " ++ entry.participantId ++ " has expired")
    refine List.mem_flatMap.mpr ⟨entry, hmem, ?_⟩
    rw [hexp]
    simp

/-- Sample REVOKED expired entry. -/
def wRevokedExpiredEntry : TrustRegistryEntry :=
  { wEntry with status := TrustStatus.REVOKED, expirationDate := some 0 }

/-- Witness for the amended C4 at concrete inputs. -/
theorem sweep_demotion_amended_witness :
    ({ wExpiredEntry with status := TrustStatus.SUSPENDED }
        ∈ processExpiredEntries 1 [wExpiredEntry])
    ∧ wRevokedExpiredEntry ∈ processExpiredEntries 1 [wRevokedExpiredEntry]
    ∧ (executeProcess 1 wExpiredState).1.success = false
    ∧ (executeProcess 1 wExpiredState).2 = wExpiredState := by
  refine ⟨(sweep_demotion_amended 1).1 [wExpiredEntry] wExpiredEntry ?_ ?_ ?_,
    (sweep_demotion_amended 1).2.1 [wRevokedExpiredEntry] wRevokedExpiredEntry ?_ ?_,
    (sweep_demotion_amended 1).2.2 wExpiredState wExpiredEntry ?_ ?_⟩ <;> decide

/-- Registry state holding the sample TRUSTED entry. -/
def wState : TrustRegistryState :=
  { trustEntries := [wEntry], verificationHistory := fun _ => [] }

/-- C6 counterexample: verification at time 86400000 succeeds but the
stored entry's lastVerified stays 0; verifyTrust does not write
lastVerified. -/
theorem verifyTrust_lastVerified_counterexample :
    (verifyTrust 86400000 wState wRequest).1.success = true
    ∧ (verifyTrust 86400000 wState wRequest).2.trustEntries.map
        TrustRegistryEntry.lastVerified = [0]
    ∧ ¬ ((verifyTrust 86400000 wState wRequest).2.trustEntries.map
        TrustRegistryEntry.lastVerified = [86400000]) := by
  decide

/-- C6 amended: a successful verifyTrust appends exactly one result at the
end of the requested participant's history, leaves every other history
unchanged and leaves every stored entry — lastVerified included —
completely unmodified (lastVerified is only written by
updateParticipantStatus). -/
theorem verifyTrust_frame (now : Int) (s : TrustRegistryState)
    (request : TrustVerificationRequest) (entry : TrustRegistryEntry)
    (hfind : s.trustEntries.find? (fun e => e.participantId == request.participantId)
      = some entry) :
    (verifyTrust now s request).1.success = true
    ∧ (verifyTrust now s request).2.trustEntries = s.trustEntries
    ∧ (∃ vr, (verifyTrust now s request).2.verificationHistory request.participantId
        = s.verificationHistory request.participantId ++ [vr])
    ∧ ∀ pid, pid ≠ request.participantId →
        (verifyTrust now s request).2.verificationHistory pid
          = s.verificationHistory pid := by
  simp only [verifyTrust, hfind]
  refine ⟨trivial, trivial, ⟨performTrustVerification now entry request, by simp⟩, ?_⟩
  intro pid hpid
  simp [hpid]

/-- Witness for the amended C6 at a concrete verification. -/
theorem verifyTrust_frame_witness :
    (verifyTrust 0 wState wRequest).1.success = true
    ∧ (verifyTrust 0 wState wRequest).2.trustEntries = wState.trustEntries
    ∧ (∃ vr, (verifyTrust 0 wState wRequest).2.verificationHistory "p1"
        = wState.verificationHistory "p1" ++ [vr]) := by
  have h := verifyTrust_frame 0 wState wRequest wEntry (by decide)
  exact ⟨h.1, h.2.1, h.2.2.1⟩

/-- C7: registering a participantId already present fails and the state,
including the original entry, is unchanged; when the submitted entry
passes input validation the failure is the duplicate error. -/
theorem registerParticipant_duplicate (now : Int) (s : TrustRegistryState)
    (entry : TrustRegistryEntry)
    (h : ∃ e ∈ s.trustEntries, e.participantId = entry.participantId) :
    (registerParticipant now s entry).1.success = false
    ∧ (registerParticipant now s entry).2 = s
    ∧ (validateInput entry = true →
        (registerParticipant now s entry).1.message = "Participant already registered") := by
  have hdup : s.trustEntries.any (fun e => e.participantId == entry.participantId) = true := by
    obtain ⟨e, he, hpe⟩ := h
    exact List.any_eq_true.mpr ⟨e, he, by simpa using hpe⟩
  by_cases hv : validateInput entry
  · simp [registerParticipant, hv, hdup]
  · simp [registerParticipant, hv]

/-- Witness for C7: re-registering the sample entry into the state that
already holds it. -/
theorem registerParticipant_duplicate_witness :
    (registerParticipant 0 wState wEntry).1.success = false
    ∧ (registerParticipant 0 wState wEntry).2 = wState
    ∧ (validateInput wEntry = true →
        (registerParticipant 0 wState wEntry).1.message
          = "Participant already registered") :=
  registerParticipant_duplicate 0 wState wEntry ⟨wEntry, by decide, rfl⟩

/-- C10: a present-but-zero minTrustScore applies no score filter (the
result is the one obtained with the criterion omitted), while a strictly
positive threshold excludes exactly the entries scoring below it. -/
theorem searchTrustRegistry_zero_min (s : TrustRegistryState) (criteria : SearchCriteria) :
    (criteria.minTrustScore = some 0 →
      searchTrustRegistry s criteria
        = searchTrustRegistry s { criteria with minTrustScore := none })
    ∧ (∀ m, criteria.minTrustScore = some m → 0 < m →
        ∀ e ∈ searchTrustRegistry s criteria, m ≤ e.trustScore) := by
  constructor
  · intro h
    unfold searchTrustRegistry
    apply List.filter_congr
    intro e _
    simp [matchesSearchCriteria, h]
  · intro m hm hpos e he
    rw [searchTrustRegistry, List.mem_filter] at he
    obtain ⟨-, hmatch⟩ := he
    simp only [matchesSearchCriteria, hm, Bool.and_eq_true] at hmatch
    have h4 := hmatch.2
    simp at h4
    rcases h4 with h4 | h4
    · omega
    · omega

/-- Sample criteria with a zero minimum trust score. -/
def wCriteriaZero : SearchCriteria :=
  { type := none, status := none, assuranceLevel := none, minTrustScore := some 0 }

/-- Witness for C10 at a concrete state and criteria. -/
theorem searchTrustRegistry_zero_min_witness :
    searchTrustRegistry wState wCriteriaZero
      = searchTrustRegistry wState { wCriteriaZero with minTrustScore := none } :=
  (searchTrustRegistry_zero_min wState wCriteriaZero).1 rfl

/-- Security levels (enum SecurityLevel). -/
inductive SecurityLevel where
  | BASIC
  | ENHANCED
  | HIGH
  | CRITICAL
deriving DecidableEq

/-- Wallet types (enum WalletType). -/
inductive WalletType where
  | MOBILE
  | WEB
  | HARDWARE
  | CLOUD
  | HYBRID
deriving DecidableEq

/-- PCTFParticipant interface. -/
structure PCTFParticipant where
  participantId : String
  name : String
  type : ParticipantType
  certificationLevel : AssuranceLevel
  isActive : Bool
  registrationDate : Int
deriving DecidableEq

/-- ConformanceCriteria interface. -/
structure ConformanceCriteria where
  id : String
  description : String
  assuranceLevel : AssuranceLevel
  riskLevel : RiskLevel
  isRequired : Bool
  mitigationStrategies : List String
deriving DecidableEq

/-- AuthenticationServiceProvider: the constructor-assigned identity of the
class (its credentials Map is irrelevant to the orchestrator claims). -/
structure AuthenticationServiceProvider where
  participantId : String
  name : String
  assuranceLevel : AssuranceLevel
deriving DecidableEq

/-- IdentityProvider: the constructor-assigned identity of the class. -/
structure IdentityProvider where
  providerId : String
  name : String
  assuranceLevel : AssuranceLevel
deriving DecidableEq

/-- PrivacyServiceProvider: the constructor-assigned identity of the class. -/
structure PrivacyServiceProvider where
  providerId : String
  name : String
deriving DecidableEq

/-- InfrastructureServiceProvider: the constructor-assigned identity of the
class. -/
structure InfrastructureServiceProvider where
  providerId : String
  name : String
  securityLevel : SecurityLevel
  assuranceLevel : AssuranceLevel
deriving DecidableEq

/-- DigitalWalletProvider: the constructor-assigned identity of the class. -/
structure DigitalWalletProvider where
  walletId : String
  ownerId : String
  walletType : WalletType
  name : String
  assuranceLevel : AssuranceLevel
deriving DecidableEq

/-- TrustRegistryProvider: the constructor-assigned identity of the class
(its entry store is modelled separately as TrustRegistryState). -/
structure TrustRegistryProvider where
  registryId : String
  name : String
  governanceFramework : String
  assuranceLevel : AssuranceLevel
deriving DecidableEq

/-- getConformanceCriteria of AuthenticationServiceProvider (AUTH-CC-01..03). -/
def AuthenticationServiceProvider.getConformanceCriteria
    (p : AuthenticationServiceProvider) : List ConformanceCriteria :=
  [{ id := "AUTH-CC-01",
     description := "Credential Service Provider maintains secure credential lifecycle",
     assuranceLevel := p.assuranceLevel, riskLevel := RiskLevel.HIGH, isRequired := true,
     mitigationStrategies :=
       ["Implement secure key management", "Regular security audits",
        "Multi-factor authentication for administrative access"] },
   { id := "AUTH-CC-02",
     description := "Authentication processes protect against replay attacks",
     assuranceLevel := p.assuranceLevel, riskLevel := RiskLevel.MEDIUM, isRequired := true,
     mitigationStrategies :=
       ["Use time-based tokens", "Implement nonce validation", "Session timeout controls"] },
   { id := "AUTH-CC-03",
     description := "Biometric authenticators meet specified accuracy requirements",
     assuranceLevel := p.assuranceLevel, riskLevel := RiskLevel.MEDIUM, isRequired := false,
     mitigationStrategies :=
       ["Regular calibration of biometric systems", "Fallback authentication methods",
        "Anti-spoofing measures"] }]

/-- getConformanceCriteria of IdentityProvider (VP-CC-01..03). -/
def IdentityProvider.getConformanceCriteria (p : IdentityProvider) :
    List ConformanceCriteria :=
  [{ id := "VP-CC-01",
     description := "Identity Provider implements comprehensive identity proofing process",
     assuranceLevel := p.assuranceLevel, riskLevel := RiskLevel.HIGH, isRequired := true,
     mitigationStrategies :=
       ["Multi-source evidence validation", "Biometric verification when appropriate",
        "Regular process audits"] },
   { id := "VP-CC-02",
     description := "Evidence validation includes authenticity and integrity checks",
     assuranceLevel := p.assuranceLevel, riskLevel := RiskLevel.HIGH, isRequired := true,
     mitigationStrategies :=
       ["Document security feature verification", "Cross-reference with authoritative sources",
        "Fraud detection algorithms"] },
   { id := "VP-CC-03",
     description := "Identity resolution prevents duplicate enrollments",
     assuranceLevel := p.assuranceLevel, riskLevel := RiskLevel.MEDIUM, isRequired := true,
     mitigationStrategies :=
       ["Comprehensive database searches", "Biometric deduplication",
        "Identity attribute correlation"] }]

/-- getConformanceCriteria of PrivacyServiceProvider (PRIV-CC-01..03). -/
def PrivacyServiceProvider.getConformanceCriteria (p : PrivacyServiceProvider) :
    List ConformanceCriteria :=
  [{ id := "PRIV-CC-01",
     description := "Organization implements all PIPEDA principles",
     assuranceLevel := AssuranceLevel.LOA3, riskLevel := RiskLevel.HIGH, isRequired := true,
     mitigationStrategies :=
       ["Regular privacy impact assessments", "Staff privacy training",
        "Privacy by design implementation"] },
   { id := "PRIV-CC-02",
     description := "Consent mechanisms are clear, meaningful, and auditable",
     assuranceLevel := AssuranceLevel.LOA2, riskLevel := RiskLevel.MEDIUM, isRequired := true,
     mitigationStrategies :=
       ["Plain language consent forms", "Granular consent options", "Consent audit trails"] },
   { id := "PRIV-CC-03",
     description := "Data minimization practices are implemented",
     assuranceLevel := AssuranceLevel.LOA2, riskLevel := RiskLevel.MEDIUM, isRequired := true,
     mitigationStrategies :=
       ["Purpose limitation controls", "Automated data deletion",
        "Regular data inventory reviews"] }]

/-- getConformanceCriteria of InfrastructureServiceProvider (INFRA-001..003). -/
def InfrastructureServiceProvider.getConformanceCriteria
    (p : InfrastructureServiceProvider) : List ConformanceCriteria :=
  [{ id := "INFRA-001",
     description := "Infrastructure components must meet minimum security standards",
     assuranceLevel := p.assuranceLevel, riskLevel := RiskLevel.HIGH, isRequired := true,
     mitigationStrategies :=
       ["Implement multi-layered security controls", "Regular security assessments and audits",
        "Continuous monitoring and alerting"] },
   { id := "INFRA-002",
     description := "Infrastructure must maintain 99.9% availability",
     assuranceLevel := p.assuranceLevel, riskLevel := RiskLevel.MEDIUM, isRequired := true,
     mitigationStrategies :=
       ["Implement redundancy and failover mechanisms",
        "Regular backup and disaster recovery testing",
        "Performance monitoring and capacity planning"] },
   { id := "INFRA-003",
     description := "All infrastructure changes must be logged and auditable",
     assuranceLevel := p.assuranceLevel, riskLevel := RiskLevel.MEDIUM, isRequired := true,
     mitigationStrategies :=
       ["Comprehensive audit logging", "Change management processes",
        "Regular compliance reviews"] }]

/-- getConformanceCriteria of DigitalWalletProvider (WALLET-001..003). -/
def DigitalWalletProvider.getConformanceCriteria (p : DigitalWalletProvider) :
    List ConformanceCriteria :=
  [{ id := "WALLET-001",
     description := "Digital wallet must implement strong authentication mechanisms",
     assuranceLevel := p.assuranceLevel, riskLevel := RiskLevel.HIGH, isRequired := true,
     mitigationStrategies :=
       ["Multi-factor authentication required", "Biometric authentication where supported",
        "Hardware security module integration"] },
   { id := "WALLET-002",
     description := "Credentials must be stored with end-to-end encryption",
     assuranceLevel := p.assuranceLevel, riskLevel := RiskLevel.HIGH, isRequired := true,
     mitigationStrategies :=
       ["AES-256 encryption for credential storage", "Key derivation from user authentication",
        "Secure key management practices"] },
   { id := "WALLET-003",
     description := "All wallet operations must be logged and auditable",
     assuranceLevel := p.assuranceLevel, riskLevel := RiskLevel.MEDIUM, isRequired := true,
     mitigationStrategies :=
       ["Comprehensive audit logging", "Tamper-evident log storage",
        "Regular log review and analysis"] }]

/-- getConformanceCriteria of TrustRegistryProvider (TRUST-001..003). -/
def TrustRegistryProvider.getConformanceCriteria (p : TrustRegistryProvider) :
    List ConformanceCriteria :=
  [{ id := "TRUST-001",
     description := "Trust registry must maintain accurate participant information",
     assuranceLevel := p.assuranceLevel, riskLevel := RiskLevel.HIGH, isRequired := true,
     mitigationStrategies :=
       ["Regular verification of participant information",
        "Automated certification status checking", "Audit trails for all registry changes"] },
   { id := "TRUST-002",
     description := "Trust scores must be calculated using verifiable criteria",
     assuranceLevel := p.assuranceLevel, riskLevel := RiskLevel.MEDIUM, isRequired := true,
     mitigationStrategies :=
       ["Transparent trust scoring algorithms", "Regular trust score recalculation",
        "Third-party validation of scoring methods"] },
   { id := "TRUST-003",
     description := "Registry must provide real-time trust verification",
     assuranceLevel := p.assuranceLevel, riskLevel := RiskLevel.MEDIUM, isRequired := true,
     mitigationStrategies :=
       ["High availability infrastructure", "Distributed registry architecture",
        "Real-time status monitoring"] }]

/-- State of the PCTFFramework orchestrator: the participant directory and
one Map (lookup function) per capability kind. -/
structure PCTFFramework where
  frameworkId : String
  version : String
  participants : String → Option PCTFParticipant
  authenticationProviders : String → Option AuthenticationServiceProvider
  identityProviders : String → Option IdentityProvider
  privacyProviders : String → Option PrivacyServiceProvider
  infrastructureProviders : String → Option InfrastructureServiceProvider
  walletProviders : String → Option DigitalWalletProvider
  trustRegistries : String → Option TrustRegistryProvider

/-- Map.set on a lookup-function map. -/
def setMap {α : Type} (m : String → Option α) (k : String) (v : α) :
    String → Option α :=
  fun x => if x == k then some v else m x

/-- validateParticipant of PCTFFramework: required-field truthiness (the
type enum is always truthy) then duplicate check. -/
def validateParticipant (now : Int) (fw : PCTFFramework) (participant : PCTFParticipant) :
    ProcessResult :=
  if participant.participantId == "" || participant.name == "" then
    { success := false, message := "Missing required participant information",
      errors := [], timestamp := now }
  else if (fw.participants participant.participantId).isSome then
    { success := false, message := "Participant already registered",
      errors := [], timestamp := now }
  else
    { success := true, message := "Participant validation successful",
      errors := [], timestamp := now }

/-- initializeServiceProviders of PCTFFramework: the variant dispatch on
participant.type that constructs and attaches providers. ISSUER, VERIFIER
and RELYING_PARTY always get a Privacy provider, and additionally an
Infrastructure provider when certificationLevel is LOA3 or LOA4. -/
def initializeServiceProviders (fw : PCTFFramework) (participant : PCTFParticipant) :
    PCTFFramework :=
  match participant.type with
  | .AUTHENTICATION_SERVICE_PROVIDER | .CREDENTIAL_SERVICE_PROVIDER =>
    let authProvider : AuthenticationServiceProvider :=
      { participantId := participant.participantId, name := participant.name,
        assuranceLevel := participant.certificationLevel }
    { fw with authenticationProviders :=
        setMap fw.authenticationProviders participant.participantId authProvider }
  | .IDENTITY_PROVIDER =>
    let identityProvider : IdentityProvider :=
      { providerId := participant.participantId, name := participant.name,
        assuranceLevel := participant.certificationLevel }
    { fw with identityProviders :=
        setMap fw.identityProviders participant.participantId identityProvider }
  | .WALLET_PROVIDER =>
    let walletProvider : DigitalWalletProvider :=
      { walletId := "WALLET-" ++ participant.participantId,
        ownerId := participant.participantId, walletType := WalletType.CLOUD,
        name := participant.name, assuranceLevel := participant.certificationLevel }
    { fw with walletProviders :=
        setMap fw.walletProviders participant.participantId walletProvider }
  | .TRUST_REGISTRY =>
    let trustRegistry : TrustRegistryProvider :=
      { registryId := participant.participantId, name := participant.name,
        governanceFramework := "DIACC-PCTF",
        assuranceLevel := participant.certificationLevel }
    { fw with trustRegistries :=
        setMap fw.trustRegistries participant.participantId trustRegistry }
  | .ISSUER | .VERIFIER | .RELYING_PARTY =>
    let privacyProvider : PrivacyServiceProvider :=
      { providerId := participant.participantId, name := participant.name }
    let fw2 := { fw with privacyProviders :=
                   setMap fw.privacyProviders participant.participantId privacyProvider }
    if participant.certificationLevel == AssuranceLevel.LOA3 ||
        participant.certificationLevel == AssuranceLevel.LOA4 then
      let infraProvider : InfrastructureServiceProvider :=
        { providerId := participant.participantId, name := participant.name,
          securityLevel := SecurityLevel.ENHANCED,
          assuranceLevel := participant.certificationLevel }
      { fw2 with
          infrastructureProviders :=
            setMap fw2.infrastructureProviders participant.participantId infraProvider }
    else fw2

/-- registerParticipant of PCTFFramework: validation, then the participant
is stored in the directory and the type-appropriate providers attached. -/
def PCTFFramework.registerParticipant (now : Int) (fw : PCTFFramework)
    (participant : PCTFParticipant) : ProcessResult × PCTFFramework :=
  let validation := validateParticipant now fw participant
  if !validation.success then
    (validation, fw)
  else
    let fw2 := { fw with participants :=
                   setMap fw.participants participant.participantId participant }
    let fw3 := initializeServiceProviders fw2 participant
    ({ success := true, message := "Participant registered successfully", errors := [],
       timestamp := now }, fw3)

/-- AssessedCriterion record created by assessComponentConformance. -/
structure AssessedCriterion where
  criterionId : String
  description : String
  isConformant : Bool
  evidence : String
  lastAssessed : Int
deriving DecidableEq

/-- ComponentConformanceResult interface. -/
structure ComponentConformanceResult where
  componentName : String
  isConformant : Bool
  assessedCriteria : List AssessedCriterion
  assessmentDate : Int
deriving DecidableEq

/-- ConformanceAssessmentResult interface. -/
structure ConformanceAssessmentResult where
  participantId : String
  assessmentDate : Int
  overallConformance : Bool
  componentResults : List ComponentConformanceResult
deriving DecidableEq

/-- assessComponentConformance of PCTFFramework: every criterion is mapped
to an AssessedCriterion with isConformant true (the source's placeholder),
and the component's isConformant is the conjunction over them. -/
def assessComponentConformance (now : Int) (componentName : String)
    (criteria : List ConformanceCriteria) : ComponentConformanceResult :=
  let assessedCriteria := criteria.map (fun criterion =>
    { criterionId := criterion.id, description := criterion.description,
      isConformant := true,
      evidence := "Conformance verified through automated testing",
      lastAssessed := now : AssessedCriterion })
  let overallConformance := assessedCriteria.all (fun ac => ac.isConformant)
  { componentName := componentName, isConformant := overallConformance,
    assessedCriteria := assessedCriteria, assessmentDate := now }

/-- The repeated accumulation step of assessConformance: push a component
result and AND its flag into overallConformance. -/
def pushComponent (results : ConformanceAssessmentResult)
    (componentResult : ComponentConformanceResult) : ConformanceAssessmentResult :=
  { results with
      componentResults := results.componentResults ++ [componentResult],
      overallConformance := results.overallConformance && componentResult.isConformant }

/-- One "if applicable" block of assessConformance: when the provider map
holds the participant, assess that component and accumulate. -/
def stepComponent {α : Type} (now : Int) (componentName : String)
    (provider : Option α) (getCriteria : α → List ConformanceCriteria)
    (results : ConformanceAssessmentResult) : ConformanceAssessmentResult :=
  match provider with
  | none => results
  | some p => pushComponent results (assessComponentConformance now componentName (getCriteria p))

/-- assessConformance of PCTFFramework: participant lookup, then the six
capability components in the fixed source order. -/
def assessConformance (now : Int) (fw : PCTFFramework) (participantId : String) :
    Option ConformanceAssessmentResult :=
  match fw.participants participantId with
  | none => none
  | some _ =>
    let conformanceResults : ConformanceAssessmentResult :=
      { participantId := participantId, assessmentDate := now,
        overallConformance := true, componentResults := [] }
    let conformanceResults := stepComponent now "Authentication"
      (fw.authenticationProviders participantId)
      AuthenticationServiceProvider.getConformanceCriteria conformanceResults
    let conformanceResults := stepComponent now "VerifiedPerson"
      (fw.identityProviders participantId)
      IdentityProvider.getConformanceCriteria conformanceResults
    let conformanceResults := stepComponent now "Privacy"
      (fw.privacyProviders participantId)
      PrivacyServiceProvider.getConformanceCriteria conformanceResults
    let conformanceResults := stepComponent now "Infrastructure"
      (fw.infrastructureProviders participantId)
      InfrastructureServiceProvider.getConformanceCriteria conformanceResults
    let conformanceResults := stepComponent now "DigitalWallet"
      (fw.walletProviders participantId)
      DigitalWalletProvider.getConformanceCriteria conformanceResults
    let conformanceResults := stepComponent now "TrustRegistry"
      (fw.trustRegistries participantId)
      TrustRegistryProvider.getConformanceCriteria conformanceResults
    some conformanceResults

/-- Modelled from the spec: the component names present for a participant,
in the fixed provider-kind enumeration order (Authentication,
VerifiedPerson, Privacy, Infrastructure, DigitalWallet, TrustRegistry). -/
def presentComponents (fw : PCTFFramework) (participantId : String) : List String :=
  (if (fw.authenticationProviders participantId).isSome then ["Authentication"] else []) ++
  (if (fw.identityProviders participantId).isSome then ["VerifiedPerson"] else []) ++
  (if (fw.privacyProviders participantId).isSome then ["Privacy"] else []) ++
  (if (fw.infrastructureProviders participantId).isSome then ["Infrastructure"] else []) ++
  (if (fw.walletProviders participantId).isSome then ["DigitalWallet"] else []) ++
  (if (fw.trustRegistries participantId).isSome then ["TrustRegistry"] else [])

/-- One step preserves "overallConformance is the AND of the flags pushed
so far" and appends the component name exactly when the provider exists. -/
theorem stepComponent_inv {α : Type} (now : Int) (componentName : String)
    (provider : Option α) (getCriteria : α → List ConformanceCriteria)
    (r : ConformanceAssessmentResult)
    (h : r.overallConformance
      = r.componentResults.all ComponentConformanceResult.isConformant) :
    ((stepComponent now componentName provider getCriteria r).overallConformance
      = (stepComponent now componentName provider getCriteria r).componentResults.all
          ComponentConformanceResult.isConformant)
    ∧ ((stepComponent now componentName provider getCriteria r).componentResults.map
          ComponentConformanceResult.componentName
        = r.componentResults.map ComponentConformanceResult.componentName
          ++ (if provider.isSome then [componentName] else [])) := by
  cases provider <;>
    simp [stepComponent, pushComponent, assessComponentConformance, h, List.all_append]

/-- C9: assessConformance emits exactly one ComponentConformanceResult per
provider map containing the participant, in the fixed order Authentication,
VerifiedPerson, Privacy, Infrastructure, DigitalWallet, TrustRegistry, and
overallConformance is the AND of the isConformant flags of exactly the
present components; with no providers the component list is empty and
overallConformance is true. -/
theorem assessConformance_shape (now : Int) (fw : PCTFFramework) (participantId : String)
    (r : ConformanceAssessmentResult)
    (h : assessConformance now fw participantId = some r) :
    r.componentResults.map ComponentConformanceResult.componentName
        = presentComponents fw participantId
    ∧ r.overallConformance = r.componentResults.all ComponentConformanceResult.isConformant
    ∧ (presentComponents fw participantId = [] →
        r.componentResults = [] ∧ r.overallConformance = true) := by
  simp only [assessConformance] at h
  cases hp : fw.participants participantId <;> rw [hp] at h
  · exact absurd h (by simp)
  · have hr := Option.some.inj h
    have i1 := stepComponent_inv now "Authentication"
      (fw.authenticationProviders participantId)
      AuthenticationServiceProvider.getConformanceCriteria
      { participantId := participantId, assessmentDate := now,
        overallConformance := true, componentResults := [] } (by simp)
    have i2 := stepComponent_inv now "VerifiedPerson"
      (fw.identityProviders participantId)
      IdentityProvider.getConformanceCriteria _ i1.1
    have i3 := stepComponent_inv now "Privacy"
      (fw.privacyProviders participantId)
      PrivacyServiceProvider.getConformanceCriteria _ i2.1
    have i4 := stepComponent_inv now "Infrastructure"
      (fw.infrastructureProviders participantId)
      InfrastructureServiceProvider.getConformanceCriteria _ i3.1
    have i5 := stepComponent_inv now "DigitalWallet"
      (fw.walletProviders participantId)
      DigitalWalletProvider.getConformanceCriteria _ i4.1
    have i6 := stepComponent_inv now "TrustRegistry"
      (fw.trustRegistries participantId)
      TrustRegistryProvider.getConformanceCriteria _ i5.1
    have hmap : r.componentResults.map ComponentConformanceResult.componentName
        = presentComponents fw participantId := by
      rw [← hr, i6.2, i5.2, i4.2, i3.2, i2.2, i1.2]
      simp [presentComponents, List.append_assoc]
    refine ⟨hmap, by rw [← hr]; exact i6.1, ?_⟩
    intro hempty
    have hcomp : r.componentResults = [] :=
      List.map_eq_nil_iff.mp (hmap.trans hempty)
    refine ⟨hcomp, ?_⟩
    rw [← hr] at hcomp ⊢
    rw [i6.1, hcomp]
    rfl

/-- The empty orchestrator. -/
def emptyFW : PCTFFramework :=
  { frameworkId := "PCTF-DEMO", version := "1.0.0",
    participants := fun _ => none, authenticationProviders := fun _ => none,
    identityProviders := fun _ => none, privacyProviders := fun _ => none,
    infrastructureProviders := fun _ => none, walletProviders := fun _ => none,
    trustRegistries := fun _ => none }

/-- Sample ISSUER participant at LOA3. -/
def wIssuerLOA3 : PCTFParticipant :=
  { participantId := "iss3", name := "Issuer Three", type := ParticipantType.ISSUER,
    certificationLevel := AssuranceLevel.LOA3, isActive := true, registrationDate := 0 }

/-- Sample ISSUER participant at LOA2. -/
def wIssuerLOA2 : PCTFParticipant :=
  { participantId := "iss2", name := "Issuer Two", type := ParticipantType.ISSUER,
    certificationLevel := AssuranceLevel.LOA2, isActive := true, registrationDate := 0 }

/-- C8: a successfully registered ISSUER, VERIFIER or RELYING_PARTY always
gets a Privacy provider under its participantId, and an Infrastructure
provider exactly when its certificationLevel is LOA3 or LOA4 (relative to
a map not already holding that id). -/
theorem issuer_gets_privacy_and_infra (now : Int) (fw : PCTFFramework)
    (p : PCTFParticipant)
    (htype : p.type = ParticipantType.ISSUER ∨ p.type = ParticipantType.VERIFIER ∨
      p.type = ParticipantType.RELYING_PARTY)
    (hsucc : (PCTFFramework.registerParticipant now fw p).1.success = true)
    (hinfra : fw.infrastructureProviders p.participantId = none) :
    (((PCTFFramework.registerParticipant now fw p).2.privacyProviders
        p.participantId).isSome = true)
    ∧ ((((PCTFFramework.registerParticipant now fw p).2.infrastructureProviders
        p.participantId).isSome = true)
      ↔ (p.certificationLevel = AssuranceLevel.LOA3 ∨
          p.certificationLevel = AssuranceLevel.LOA4)) := by
  simp only [PCTFFramework.registerParticipant] at hsucc ⊢
  cases hv : (validateParticipant now fw p).success
  · simp [hv] at hsucc
  · simp only [Bool.not_true, Bool.false_eq_true, if_false]
    rcases htype with ht | ht | ht <;>
      · simp only [initializeServiceProviders, ht]
        cases hcl : p.certificationLevel <;>
          simp [setMap, hcl, hinfra]

/-- Witness for C8: a fresh ISSUER at LOA3 and one at LOA2 registered into
the empty orchestrator. -/
theorem issuer_gets_privacy_and_infra_witness :
    ((((PCTFFramework.registerParticipant 0 emptyFW wIssuerLOA3).2.privacyProviders
        "iss3").isSome = true)
      ∧ ((((PCTFFramework.registerParticipant 0 emptyFW wIssuerLOA3).2.infrastructureProviders
        "iss3").isSome = true)
        ↔ (wIssuerLOA3.certificationLevel = AssuranceLevel.LOA3 ∨
            wIssuerLOA3.certificationLevel = AssuranceLevel.LOA4)))
    ∧ ((((PCTFFramework.registerParticipant 0 emptyFW wIssuerLOA2).2.privacyProviders
        "iss2").isSome = true)
      ∧ ((((PCTFFramework.registerParticipant 0 emptyFW wIssuerLOA2).2.infrastructureProviders
        "iss2").isSome = true)
        ↔ (wIssuerLOA2.certificationLevel = AssuranceLevel.LOA3 ∨
            wIssuerLOA2.certificationLevel = AssuranceLevel.LOA4))) :=
  ⟨issuer_gets_privacy_and_infra 0 emptyFW wIssuerLOA3 (Or.inl rfl) (by decide) rfl,
   issuer_gets_privacy_and_infra 0 emptyFW wIssuerLOA2 (Or.inl rfl) (by decide) rfl⟩

/-- The orchestrator after registering the LOA3 issuer. -/
def wFW3 : PCTFFramework := (PCTFFramework.registerParticipant 0 emptyFW wIssuerLOA3).2

/-- Witness for C9 on the concrete orchestrator holding one issuer with
Privacy and Infrastructure providers. -/
theorem assessConformance_shape_witness :
    ∃ r, assessConformance 0 wFW3 "iss3" = some r
      ∧ r.componentResults.map ComponentConformanceResult.componentName
          = ["Privacy", "Infrastructure"]
      ∧ r.overallConformance
          = r.componentResults.all ComponentConformanceResult.isConformant := by
  obtain ⟨r, hr⟩ : ∃ r, assessConformance 0 wFW3 "iss3" = some r := by
    cases hx : assessConformance 0 wFW3 "iss3"
    · exact absurd hx (by decide)
    · exact ⟨_, rfl⟩
  have hshape := assessConformance_shape 0 wFW3 "iss3" r hr
  exact ⟨r, hr, hshape.1.trans (by decide), hshape.2.1⟩

end DIACC
